import Mathlib

/-!
Verification of the subscription/streaming client of the tinkoff-go repository.

This file shallowly embeds the parts of the Go source that the checked
properties are about:

* `config.New` and the server constants (config package);
* `RetryConfig.CalculateBackoff` and `DefaultRetryConfig` (internal package),
  with `time.Duration` modelled as a wrapping signed 64-bit integer;
* the `RealClient` streaming helpers `SubscribeCandles`, `SubscribeOrderBook`,
  `SubscribeTrades`, `SubscribeLastPrices`, the guarded operations
  `StartMarketDataStream` and `GetAccounts`, and `RealClient.Close`
  (client/real_client.go);
* `Client.Close` of the mock client (client/client.go), which additionally
  closes three data channels;
* the receive loop `handleMarketDataStream` and the dispatch switch
  `processMarketDataResponse` of examples/advanced_orders/main.go.

External collaborators (the gRPC transport, the remote server) are passed in
as explicit arguments: a stream is the outcome of `Send` per request, a
receive loop input is the finite list of successive `Recv` outcomes, and the
success of the underlying connection close is a boolean oracle.  Numeric
payload fields that the source only formats into log text through float
conversion keep their wire form (`Quotation` pairs) instead.
-/

namespace TinkoffGo

/-- Quotation mirrors the proto message: units and nano parts of a decimal. -/
structure Quotation where
  units : Int
  nano : Int
  deriving DecidableEq, Repr

/-! ## config package -/

/-- Config holds the configuration for the Tinkoff client. -/
structure Config where
  Token : String
  IsDemo : Bool
  ServerURL : String
  deriving DecidableEq, Repr

/-- Production server address constant. -/
def ProductionServer : String := "invest-public-api.tinkoff.ru:443"

/-- Sandbox (demo) server address constant. -/
def DemoServer : String := "sandbox-invest-public-api.tinkoff.ru:443"

/-- config.New: creates a configuration; errors exactly when the token is
empty, otherwise picks the demo or production server by the flag. -/
def configNew (token : String) (isDemo : Bool) : Except String Config :=
  if token = "" then
    .error "token is required"
  else
    .ok { Token := token, IsDemo := isDemo
          ServerURL := if isDemo then DemoServer else ProductionServer }

/-! ## internal package: retry configuration -/

/-- Wraparound of a signed 64-bit integer, modelling Go int64 arithmetic
(`time.Duration` is an int64 count of nanoseconds). -/
def wrap64 (x : Int) : Int := (x + 2 ^ 63) % 2 ^ 64 - 2 ^ 63

/-- RetryConfig represents retry configuration; delays are nanoseconds. -/
structure RetryConfig where
  MaxRetries : Int
  BaseDelay : Int
  MaxDelay : Int
  deriving DecidableEq, Repr

/-- DefaultRetryConfig: 3 retries, 100ms base delay, 5s max delay. -/
def DefaultRetryConfig : RetryConfig :=
  { MaxRetries := 3, BaseDelay := 100 * 1000000, MaxDelay := 5 * 1000000000 }

/-- Loop of RetryConfig.CalculateBackoff: starting from the base delay it is
doubled once per remaining attempt (int64 arithmetic); when the doubled value
exceeds the maximum, the maximum is returned and the loop breaks. -/
def calculateBackoffLoop (maxDelay : Int) : Nat → Int → Int
  | 0, delay => delay
  | n + 1, delay =>
    if wrap64 (delay * 2) > maxDelay then maxDelay
    else calculateBackoffLoop maxDelay n (wrap64 (delay * 2))

/-- RetryConfig.CalculateBackoff: exponential backoff delay for an attempt. -/
def RetryConfig.CalculateBackoff (rc : RetryConfig) (attempt : Nat) : Int :=
  calculateBackoffLoop rc.MaxDelay attempt rc.BaseDelay

/-! ## proto request model (market data stream control frames) -/

/-- SubscriptionAction of the proto request. -/
inductive SubscriptionAction
  | subscribe
  | unsubscribe
  deriving DecidableEq, Repr

/-- SubscriptionInterval of the proto request (abbreviated enum). -/
inductive SubscriptionInterval
  | unspecified
  | oneMinute
  | fiveMinutes
  deriving DecidableEq, Repr

/-- CandleInstrument entry of a subscribe-candles request. -/
structure CandleInstrument where
  instrumentId : String
  interval : SubscriptionInterval
  deriving DecidableEq, Repr

/-- OrderBookInstrument entry of a subscribe-order-book request. -/
structure OrderBookInstrument where
  instrumentId : String
  depth : Int
  deriving DecidableEq, Repr

/-- TradeInstrument entry of a subscribe-trades request. -/
structure TradeInstrument where
  instrumentId : String
  deriving DecidableEq, Repr

/-- LastPriceInstrument entry of a subscribe-last-price request. -/
structure LastPriceInstrument where
  instrumentId : String
  deriving DecidableEq, Repr

/-- Payload union of MarketDataRequest (subscribe variants used in source). -/
inductive MarketDataRequestPayload
  | subscribeCandlesRequest (action : SubscriptionAction)
      (instruments : List CandleInstrument) (waitingClose : Bool)
  | subscribeOrderBookRequest (action : SubscriptionAction)
      (instruments : List OrderBookInstrument)
  | subscribeTradesRequest (action : SubscriptionAction)
      (instruments : List TradeInstrument)
  | subscribeLastPriceRequest (action : SubscriptionAction)
      (instruments : List LastPriceInstrument)
  deriving DecidableEq, Repr

/-- MarketDataRequest: one control frame sent on the stream. -/
structure MarketDataRequest where
  payload : MarketDataRequestPayload
  deriving DecidableEq, Repr

/-- A market data stream as the subscribe helpers see it: `Send` of a request
either succeeds (`none`) or fails with an error message. -/
abbrev MarketDataStream := MarketDataRequest → Option String

/-! ## client package: RealClient state and operations -/

/-- Observable state of a RealClient: the connected flag, the accounts cache,
and counters for the externally visible teardown effects (context
cancellation, gRPC connection close calls). -/
structure RealClientState where
  connected : Bool
  accounts : List String
  cancelCount : Nat
  connCloseCount : Nat
  deriving DecidableEq, Repr

/-- RealClient.SubscribeCandles: builds one CandleInstrument per instrument id
(copying the interval into each), wraps them in a single subscribe request
with action SUBSCRIBE, sends it once, and wraps a send failure into an error.
The first component lists the requests passed to stream.Send.  The receiver
`c` is present but, as in the source, never consulted. -/
def RealClientSubscribeCandles (c : RealClientState) (stream : MarketDataStream)
    (instruments : List String) (interval : SubscriptionInterval)
    (waitingClose : Bool) : List MarketDataRequest × Option String :=
  let candleInstruments := instruments.map fun instrumentID =>
    CandleInstrument.mk instrumentID interval
  let req : MarketDataRequest :=
    ⟨.subscribeCandlesRequest .subscribe candleInstruments waitingClose⟩
  match stream req with
  | some e => ([req], some ("failed to subscribe to candles: " ++ e))
  | none => ([req], none)

/-- RealClient.SubscribeOrderBook: one OrderBookInstrument per instrument id
with the depth copied into each entry; no validation of any kind is performed
on the instrument ids or the depth. -/
def RealClientSubscribeOrderBook (c : RealClientState) (stream : MarketDataStream)
    (instruments : List String) (depth : Int) :
    List MarketDataRequest × Option String :=
  let orderBookInstruments := instruments.map fun instrumentID =>
    OrderBookInstrument.mk instrumentID depth
  let req : MarketDataRequest :=
    ⟨.subscribeOrderBookRequest .subscribe orderBookInstruments⟩
  match stream req with
  | some e => ([req], some ("failed to subscribe to order book: " ++ e))
  | none => ([req], none)

/-- RealClient.SubscribeTrades: one TradeInstrument per instrument id. -/
def RealClientSubscribeTrades (c : RealClientState) (stream : MarketDataStream)
    (instruments : List String) : List MarketDataRequest × Option String :=
  let tradeInstruments := instruments.map fun instrumentID =>
    TradeInstrument.mk instrumentID
  let req : MarketDataRequest :=
    ⟨.subscribeTradesRequest .subscribe tradeInstruments⟩
  match stream req with
  | some e => ([req], some ("failed to subscribe to trades: " ++ e))
  | none => ([req], none)

/-- RealClient.SubscribeLastPrices: one LastPriceInstrument per id. -/
def RealClientSubscribeLastPrices (c : RealClientState) (stream : MarketDataStream)
    (instruments : List String) : List MarketDataRequest × Option String :=
  let lastPriceInstruments := instruments.map fun instrumentID =>
    LastPriceInstrument.mk instrumentID
  let req : MarketDataRequest :=
    ⟨.subscribeLastPriceRequest .subscribe lastPriceInstruments⟩
  match stream req with
  | some e => ([req], some ("failed to subscribe to last prices: " ++ e))
  | none => ([req], none)

/-- RealClient.StartMarketDataStream: guarded by the connected flag; the
outcome of opening the bidirectional gRPC stream is the external argument. -/
def RealClientStartMarketDataStream (c : RealClientState)
    (streamStart : Except String Unit) : Except String Unit :=
  if !c.connected then .error "client not connected"
  else
    match streamStart with
    | .error e => .error ("failed to start market data stream: " ++ e)
    | .ok _ => .ok ()

/-- RealClient.GetAccounts: guarded by the connected flag; on success it
caches and returns the accounts delivered by the external rpc. -/
def RealClientGetAccounts (c : RealClientState)
    (rpc : Except String (List String)) :
    RealClientState × Except String (List String) :=
  if !c.connected then (c, .error "client not connected")
  else
    match rpc with
    | .error e => (c, .error ("failed to get accounts: " ++ e))
    | .ok accs => ({ c with accounts := accs }, .ok accs)

/-- RealClient.Close.  `connCloseOk` is whether the external gRPC connection
close succeeds.  Source order: early nil return when not connected; cancel the
context; close the connection, returning its error early (the connected flag
then stays true); finally clear the connected flag and return nil. -/
def RealClientClose (connCloseOk : Bool) (c : RealClientState) :
    RealClientState × Option String :=
  if !c.connected then (c, none)
  else
    let c1 := { c with
      cancelCount := c.cancelCount + 1
      connCloseCount := c.connCloseCount + 1 }
    if connCloseOk then ({ c1 with connected := false }, none)
    else (c1, some "failed to close connection")

/-- Observable state of the mock Client of client/client.go: as RealClient
but with three buffered data channels that Close also closes (counted
together, since the source always closes all three in one block). -/
structure ClientState where
  connected : Bool
  cancelCount : Nat
  channelCloseCount : Nat
  connCloseCount : Nat
  deriving DecidableEq, Repr

/-- Client.Close of the mock client.  Source order: early nil return when not
connected; cancel; close the three data channels; close the gRPC connection,
returning its error early (connected stays true, channels already closed);
finally clear the connected flag and return nil. -/
def ClientClose (connCloseOk : Bool) (c : ClientState) :
    ClientState × Option String :=
  if !c.connected then (c, none)
  else
    let c1 := { c with
      cancelCount := c.cancelCount + 1
      channelCloseCount := c.channelCloseCount + 1
      connCloseCount := c.connCloseCount + 1 }
    if connCloseOk then ({ c1 with connected := false }, none)
    else (c1, some "failed to close connection")

/-! ## examples/advanced_orders/main.go: receive loop and dispatch switch -/

/-- TradeDirection of an inbound trade frame (abbreviated proto enum). -/
inductive TradeDirection
  | unspecified
  | buy
  | sell
  deriving DecidableEq, Repr

/-- Payload union of MarketDataResponse: the inbound frame kinds the dispatch
switch distinguishes.  Fields the switch actually reads are kept; timestamps,
which are only formatted into log text, are elided. -/
inductive MarketDataResponsePayload
  | candle (figi : String) (openQ highQ lowQ closeQ : Quotation) (volume : Int)
  | trade (figi : String) (direction : TradeDirection) (price : Quotation)
      (quantity : Int)
  | orderbook (figi : String) (bids asks : List Quotation)
  | lastPrice (figi : String) (price : Quotation)
  | tradingStatus (figi : String) (status : String)
  | ping
  | subscribeCandlesResponse (trackingId : String)
  | subscribeOrderBookResponse (trackingId : String)
  | subscribeTradesResponse (trackingId : String)
  | subscribeLastPriceResponse (trackingId : String)
  | unknownPayload
  deriving DecidableEq, Repr

/-- getInstrumentName: static figi-to-ticker table of the example. -/
def getInstrumentName (figi : String) : String :=
  if figi = "BBG004730N88" then "SBER"
  else if figi = "BBG004730ZJ9" then "GAZP"
  else if figi = "BBG006L8G4H1" then "YNDX"
  else figi

/-- One log line of the example, one constructor per branch of the two
switches plus the two receive-loop exit messages. -/
inductive LogEvent
  | candleLog (name : String) (openQ highQ lowQ closeQ : Quotation) (volume : Int)
  | tradeLog (name : String) (direction : String) (price : Quotation)
      (quantity : Int) (size : String)
  | orderBookLog (name : String) (bestBid bestAsk : Option Quotation)
      (bidsDepth asksDepth : Nat)
  | lastPriceLog (name : String) (price : Quotation)
  | tradingStatusLog (name : String) (status : String)
  | pingLog
  | candlesSubscriptionConfirmed (trackingId : String)
  | orderBookSubscriptionConfirmed (trackingId : String)
  | tradesSubscriptionConfirmed (trackingId : String)
  | lastPriceSubscriptionConfirmed (trackingId : String)
  | unknownTypeLog
  | streamClosedLog
  | streamErrorLog (msg : String)
  deriving DecidableEq, Repr

/-- processMarketDataResponse: the dispatch switch over the payload kind.
Every branch logs; no branch consults a subscription table, keeps a counter,
or returns an error.  The trade branch classifies direction and size exactly
as the source does. -/
def processMarketDataResponse : MarketDataResponsePayload → LogEvent
  | .candle figi o h l cl v => .candleLog (getInstrumentName figi) o h l cl v
  | .trade figi dir price qty =>
    let direction := if dir = .sell then "🔴 SELL" else "🟢 BUY "
    let size := if qty ≥ 1000 then "large" else if qty ≥ 100 then "medium" else "small"
    .tradeLog (getInstrumentName figi) direction price qty size
  | .orderbook figi bids asks =>
    .orderBookLog (getInstrumentName figi) bids.head? asks.head? bids.length asks.length
  | .lastPrice figi p => .lastPriceLog (getInstrumentName figi) p
  | .tradingStatus figi st => .tradingStatusLog (getInstrumentName figi) st
  | .ping => .pingLog
  | .subscribeCandlesResponse tid => .candlesSubscriptionConfirmed tid
  | .subscribeOrderBookResponse tid => .orderBookSubscriptionConfirmed tid
  | .subscribeTradesResponse tid => .tradesSubscriptionConfirmed tid
  | .subscribeLastPriceResponse tid => .lastPriceSubscriptionConfirmed tid
  | .unknownPayload => .unknownTypeLog

/-- Outcome of one stream.Recv call in the receive loop. -/
inductive RecvOutcome
  | frame (resp : MarketDataResponsePayload)
  | eof
  | recvErr (msg : String)
  deriving DecidableEq, Repr

/-- handleMarketDataStream: the receive loop.  The input is the finite list
of successive stream.Recv outcomes; the result is the list of log lines and
the list of control frames the handler sends on the transport.  The source
loop processes frames until the first Recv failure: on io.EOF it logs the
closure and returns, on any other error it logs the error and returns.  Its
body contains no Send call and no retry, so the sent-frames component is
empty in every branch. -/
def handleMarketDataStream : List RecvOutcome → List LogEvent × List MarketDataRequest
  | [] => ([], [])
  | .eof :: _ => ([.streamClosedLog], [])
  | .recvErr m :: _ => ([.streamErrorLog m], [])
  | .frame f :: rest =>
    let r := handleMarketDataStream rest
    (processMarketDataResponse f :: r.1, r.2)

/-! ## concrete values used by the closed counterexamples and witnesses -/

/-- A client in the connected state with fresh effect counters. -/
def connectedState : RealClientState :=
  { connected := true, accounts := [], cancelCount := 0, connCloseCount := 0 }

/-- The client state produced by a successful explicit Close. -/
def closedState : RealClientState := (RealClientClose true connectedState).1

/-- A stream whose Send always succeeds. -/
def okStream : MarketDataStream := fun _ => none

/-- A stream whose Send always fails, as when the channel is down. -/
def downStream : MarketDataStream := fun _ => some "transport is down"

/-- Receive history in which the transport errors while one candle
subscription is live and a further frame would have followed. -/
def recvAfterError : List RecvOutcome :=
  [RecvOutcome.recvErr "connection reset",
   RecvOutcome.frame (.candle "BBG004730N88" ⟨250, 0⟩ ⟨251, 0⟩ ⟨249, 0⟩
     ⟨250, 500000000⟩ 10)]

/-! ## Theorems -/

/-- Claim C10: config.New errors exactly when the token is empty; on success
the Config carries the token, the demo flag, and the sandbox server address
for demo mode, the production address otherwise. -/
theorem configNew_spec (token : String) (isDemo : Bool) :
    (configNew token isDemo = .error "token is required" ↔ token = "")
    ∧ (token ≠ "" →
        configNew token isDemo
          = .ok { Token := token, IsDemo := isDemo
                  ServerURL := if isDemo then DemoServer else ProductionServer }) := by
  unfold configNew
  by_cases h : token = "" <;> simp [h]

/-- Witness for claim C10 at a concrete token and demo flag. -/
theorem configNew_spec_witness :
    configNew "token123" true
      = .ok { Token := "token123", IsDemo := true
              ServerURL := if true then DemoServer else ProductionServer } :=
  (configNew_spec "token123" true).2 (by decide)

/-- Helper: wrap64 is the identity on values already in int64 range. -/
theorem wrap64_eq_self (x : Int) (h0 : -(2 ^ 63) ≤ x) (h1 : x < 2 ^ 63) :
    wrap64 x = x := by
  unfold wrap64
  rw [Int.emod_eq_of_lt (by omega) (by omega)]
  omega

/-- Helper: the backoff loop computes the clamped power as long as the
maximum delay is small enough that doubling a value bounded by it cannot
overflow int64. -/
theorem calculateBackoffLoop_eq_min (maxD : Int) (hmax : maxD < 2 ^ 62) :
    ∀ (n : Nat) (delay : Int), 0 < delay → delay ≤ maxD →
      calculateBackoffLoop maxD n delay = min (delay * 2 ^ n) maxD := by
  intro n
  induction n with
  | zero =>
    intro delay h1 h2
    simp only [calculateBackoffLoop, pow_zero, mul_one]
    omega
  | succ n ih =>
    intro delay h1 h2
    have hw : wrap64 (delay * 2) = delay * 2 := wrap64_eq_self _ (by omega) (by omega)
    have hpow : (1 : Int) ≤ 2 ^ n := one_le_pow₀ (by norm_num)
    have harr : delay * 2 ^ (n + 1) = delay * 2 * 2 ^ n := by ring
    rw [calculateBackoffLoop, hw]
    by_cases hc : delay * 2 > maxD
    · rw [if_pos hc]
      have hge : delay * 2 ≤ delay * 2 * 2 ^ n :=
        le_mul_of_one_le_right (by omega) hpow
      rw [harr, min_eq_right (by omega)]
    · rw [if_neg hc]
      rw [ih (delay * 2) (by omega) (by omega), harr]

/-- Claim C9 counterexample: with BaseDelay 2^62 ns and MaxDelay 2^63 - 1 ns
(both representable time.Duration values with 0 < BaseDelay ≤ MaxDelay), the
first doubling overflows int64 to -2^63, which the `> MaxDelay` clamp does
not catch, so CalculateBackoff 1 returns -2^63 instead of
min(BaseDelay * 2, MaxDelay), and the delay decreases from attempt 0 to 1. -/
theorem calculateBackoff_overflow_cex :
    (0 : Int) < (2 ^ 62 : Int)
    ∧ (2 ^ 62 : Int) ≤ 2 ^ 63 - 1
    ∧ RetryConfig.CalculateBackoff ⟨3, 2 ^ 62, 2 ^ 63 - 1⟩ 1 = -(2 ^ 63)
    ∧ RetryConfig.CalculateBackoff ⟨3, 2 ^ 62, 2 ^ 63 - 1⟩ 1
        ≠ min ((2 ^ 62 : Int) * 2 ^ 1) (2 ^ 63 - 1)
    ∧ RetryConfig.CalculateBackoff ⟨3, 2 ^ 62, 2 ^ 63 - 1⟩ 1
        < RetryConfig.CalculateBackoff ⟨3, 2 ^ 62, 2 ^ 63 - 1⟩ 0 := by
  refine ⟨by norm_num, by norm_num, ?_, ?_, ?_⟩ <;> decide

/-- Claim C9 (amended): for every RetryConfig with 0 < BaseDelay ≤ MaxDelay
and MaxDelay < 2^62 — so that no doubling can overflow int64 — and every
attempt n, CalculateBackoff n equals min(BaseDelay * 2^n, MaxDelay); in
particular it never exceeds MaxDelay and is non-decreasing in n. -/
theorem calculateBackoff_eq_min (rc : RetryConfig) (n : Nat)
    (h1 : 0 < rc.BaseDelay) (h2 : rc.BaseDelay ≤ rc.MaxDelay)
    (h3 : rc.MaxDelay < 2 ^ 62) :
    rc.CalculateBackoff n = min (rc.BaseDelay * 2 ^ n) rc.MaxDelay
    ∧ rc.CalculateBackoff n ≤ rc.MaxDelay
    ∧ rc.CalculateBackoff n ≤ rc.CalculateBackoff (n + 1) := by
  have key : ∀ m, rc.CalculateBackoff m = min (rc.BaseDelay * 2 ^ m) rc.MaxDelay :=
    fun m => calculateBackoffLoop_eq_min rc.MaxDelay h3 m rc.BaseDelay h1 h2
  refine ⟨key n, ?_, ?_⟩
  · rw [key n]; exact min_le_right _ _
  · rw [key n, key (n + 1)]
    have hmono : rc.BaseDelay * 2 ^ n ≤ rc.BaseDelay * 2 ^ (n + 1) := by
      have : (2 : Int) ^ n ≤ 2 ^ (n + 1) :=
        pow_le_pow_right₀ (by norm_num) (Nat.le_succ n)
      exact mul_le_mul_of_nonneg_left this (by omega)
    exact min_le_min hmono le_rfl

/-- Witness for the amended claim C9 at the default retry configuration. -/
theorem calculateBackoff_eq_min_witness :
    RetryConfig.CalculateBackoff DefaultRetryConfig 2
      = min (DefaultRetryConfig.BaseDelay * 2 ^ 2) DefaultRetryConfig.MaxDelay :=
  (calculateBackoff_eq_min DefaultRetryConfig 2 (by decide) (by decide)
    (by decide)).1

/-- Claim C8: each of the four subscribe helpers passes exactly one request
to stream.Send, whose payload holds one instrument entry per input id in the
same order, with the interval (respectively depth) copied into every entry
and action SUBSCRIBE, and the call returns nil exactly when the send
succeeds. -/
theorem subscribe_requests_shape (c : RealClientState) (stream : MarketDataStream)
    (instruments : List String) (interval : SubscriptionInterval)
    (waitingClose : Bool) (depth : Int) :
    ((RealClientSubscribeCandles c stream instruments interval waitingClose).1
        = [⟨.subscribeCandlesRequest .subscribe
              (instruments.map fun i => ⟨i, interval⟩) waitingClose⟩]
      ∧ ((RealClientSubscribeCandles c stream instruments interval waitingClose).2 = none
          ↔ stream ⟨.subscribeCandlesRequest .subscribe
              (instruments.map fun i => ⟨i, interval⟩) waitingClose⟩ = none))
    ∧ ((RealClientSubscribeOrderBook c stream instruments depth).1
        = [⟨.subscribeOrderBookRequest .subscribe
              (instruments.map fun i => ⟨i, depth⟩)⟩]
      ∧ ((RealClientSubscribeOrderBook c stream instruments depth).2 = none
          ↔ stream ⟨.subscribeOrderBookRequest .subscribe
              (instruments.map fun i => ⟨i, depth⟩)⟩ = none))
    ∧ ((RealClientSubscribeTrades c stream instruments).1
        = [⟨.subscribeTradesRequest .subscribe (instruments.map fun i => ⟨i⟩)⟩]
      ∧ ((RealClientSubscribeTrades c stream instruments).2 = none
          ↔ stream ⟨.subscribeTradesRequest .subscribe
              (instruments.map fun i => ⟨i⟩)⟩ = none))
    ∧ ((RealClientSubscribeLastPrices c stream instruments).1
        = [⟨.subscribeLastPriceRequest .subscribe (instruments.map fun i => ⟨i⟩)⟩]
      ∧ ((RealClientSubscribeLastPrices c stream instruments).2 = none
          ↔ stream ⟨.subscribeLastPriceRequest .subscribe
              (instruments.map fun i => ⟨i⟩)⟩ = none)) := by
  refine ⟨⟨?_, ?_⟩, ⟨?_, ?_⟩, ⟨?_, ?_⟩, ⟨?_, ?_⟩⟩ <;>
    first
      | (unfold RealClientSubscribeCandles
         cases h : stream ⟨.subscribeCandlesRequest .subscribe
             (instruments.map fun i => ⟨i, interval⟩) waitingClose⟩ <;> simp [h])
      | (unfold RealClientSubscribeOrderBook
         cases h : stream ⟨.subscribeOrderBookRequest .subscribe
             (instruments.map fun i => ⟨i, depth⟩)⟩ <;> simp [h])
      | (unfold RealClientSubscribeTrades
         cases h : stream ⟨.subscribeTradesRequest .subscribe
             (instruments.map fun i => ⟨i⟩)⟩ <;> simp [h])
      | (unfold RealClientSubscribeLastPrices
         cases h : stream ⟨.subscribeLastPriceRequest .subscribe
             (instruments.map fun i => ⟨i⟩)⟩ <;> simp [h])

/-- Claim C1 counterexample: the receive loop hits a non-EOF transport error
while a candle subscription is live and another inbound frame would follow;
the retry budget of the default retry configuration (MaxRetries = 3) is
untouched, yet the loop logs the error and terminates at once: it sends zero
control frames (the claim requires exactly one resync frame for the one live
subscription) and never processes the subsequent frame. -/
theorem handleMarketDataStream_error_cex :
    handleMarketDataStream recvAfterError
      = ([LogEvent.streamErrorLog "connection reset"], [])
    ∧ (handleMarketDataStream recvAfterError).2.length ≠ 1
    ∧ DefaultRetryConfig.MaxRetries = 3 :=
  ⟨rfl, by decide, rfl⟩

/-- Claim C1 (amended): on any receive failure — a transport error or EOF —
the receive loop logs the failure and terminates immediately: it never closes
and reopens a channel, applies no backoff, resends no subscription, and the
rest of the inbound traffic is never processed.  Reconnection is not
implemented. -/
theorem handleMarketDataStream_terminates_on_failure (msg : String)
    (rest : List RecvOutcome) :
    handleMarketDataStream (RecvOutcome.recvErr msg :: rest)
      = ([LogEvent.streamErrorLog msg], [])
    ∧ handleMarketDataStream (RecvOutcome.eof :: rest)
      = ([LogEvent.streamClosedLog], []) :=
  ⟨rfl, rfl⟩

/-- Claim C2 counterexample: with the channel down (every Send fails), both
SubscribeCandles and SubscribeTrades return a wrapped error to the caller —
the claim says the call returns no error and the subscription stays Pending
for an automatic resend, but no such state exists. -/
theorem subscribe_send_failure_cex :
    (RealClientSubscribeCandles connectedState downStream ["BBG004730N88"]
        .oneMinute false).2
      = some "failed to subscribe to candles: transport is down"
    ∧ (RealClientSubscribeCandles connectedState downStream ["BBG004730N88"]
        .oneMinute false).2 ≠ none
    ∧ (RealClientSubscribeTrades connectedState downStream ["BBG004730N88"]).2
      = some "failed to subscribe to trades: transport is down"
    ∧ (RealClientSubscribeTrades connectedState downStream ["BBG004730N88"]).2
      ≠ none :=
  ⟨rfl, by decide, rfl, by decide⟩

/-- Claim C2 (amended): when the stream send fails, SubscribeCandles and
SubscribeTrades return the wrapped send error synchronously; the client
retains no subscription state, so nothing is re-sent later. -/
theorem subscribe_send_failure_returns_error (c : RealClientState)
    (instruments : List String) (interval : SubscriptionInterval)
    (waitingClose : Bool) (e : String) :
    (RealClientSubscribeCandles c (fun _ => some e) instruments interval
        waitingClose).2
      = some ("failed to subscribe to candles: " ++ e)
    ∧ (RealClientSubscribeTrades c (fun _ => some e) instruments).2
      = some ("failed to subscribe to trades: " ++ e) :=
  ⟨rfl, rfl⟩

/-- Claim C3 counterexample: a maximally malformed order-book topic — empty
instrument id and depth 0, outside 1..50 — is not rejected: SubscribeOrderBook
passes the request carrying it verbatim to the transport and returns nil.
The claim requires a synchronous InvalidTopic failure with nothing sent. -/
theorem subscribeOrderBook_invalid_topic_cex :
    (RealClientSubscribeOrderBook connectedState okStream [""] 0).1
      = [⟨.subscribeOrderBookRequest .subscribe [⟨"", 0⟩]⟩]
    ∧ (RealClientSubscribeOrderBook connectedState okStream [""] 0).2 = none :=
  ⟨rfl, rfl⟩

/-- Claim C3 (amended): SubscribeOrderBook validates nothing: for every
instrument id list (empty ids included) and every depth (values outside 1..50
included) it sends exactly one subscribe frame carrying them verbatim, and
the only possible error is a transport send failure. -/
theorem subscribeOrderBook_no_validation (c : RealClientState)
    (stream : MarketDataStream) (instruments : List String) (depth : Int) :
    (RealClientSubscribeOrderBook c stream instruments depth).1
      = [⟨.subscribeOrderBookRequest .subscribe
            (instruments.map fun i => ⟨i, depth⟩)⟩]
    ∧ ((RealClientSubscribeOrderBook c stream instruments depth).2 = none
        ↔ stream ⟨.subscribeOrderBookRequest .subscribe
            (instruments.map fun i => ⟨i, depth⟩)⟩ = none) := by
  unfold RealClientSubscribeOrderBook
  cases h : stream ⟨.subscribeOrderBookRequest .subscribe
      (instruments.map fun i => ⟨i, depth⟩)⟩ <;> simp [h]

/-- Claim C4 counterexample: subscribing twice to the identical candle topic
sends two identical control frames on the transport — the send count rises
from 1 to 2, where the claim requires it to stay unchanged for topics already
subscribed. -/
theorem resubscribe_sends_second_frame_cex :
    ((RealClientSubscribeCandles connectedState okStream ["BBG004730N88"]
          .oneMinute false).1
        ++ (RealClientSubscribeCandles connectedState okStream ["BBG004730N88"]
          .oneMinute false).1).length = 2
    ∧ (RealClientSubscribeCandles connectedState okStream ["BBG004730N88"]
          .oneMinute false).1
      = [⟨.subscribeCandlesRequest .subscribe [⟨"BBG004730N88", .oneMinute⟩]
            false⟩] :=
  ⟨rfl, rfl⟩

/-- Claim C4 (amended): every SubscribeCandles call unconditionally passes
exactly one control frame to stream.Send — there is no registry, no handler
to replace, and no already-Active check — and the frame does not depend on
any client state, so a re-subscription emits a second identical frame. -/
theorem subscribe_always_sends_frame (c c2 : RealClientState)
    (stream : MarketDataStream) (instruments : List String)
    (interval : SubscriptionInterval) (waitingClose : Bool) :
    (RealClientSubscribeCandles c stream instruments interval waitingClose).1.length = 1
    ∧ RealClientSubscribeCandles c stream instruments interval waitingClose
        = RealClientSubscribeCandles c2 stream instruments interval waitingClose := by
  constructor
  · unfold RealClientSubscribeCandles
    cases h : stream ⟨.subscribeCandlesRequest .subscribe
        (instruments.map fun i => ⟨i, interval⟩) waitingClose⟩ <;> simp [h]
  · rfl

/-- Claim C5 counterexample: a candle frame for instrument BBG000B9XRY4, for
which no subscription exists anywhere in the program, is not dropped: the
dispatch switch logs it through the candle branch exactly as it does for a
subscribed instrument, and `processMarketDataResponse` carries no drop
counter and no subscription table that could distinguish the two. -/
theorem dispatch_unsubscribed_topic_cex :
    processMarketDataResponse
        (.candle "BBG000B9XRY4" ⟨100, 0⟩ ⟨101, 0⟩ ⟨99, 0⟩ ⟨100, 0⟩ 7)
      = .candleLog "BBG000B9XRY4" ⟨100, 0⟩ ⟨101, 0⟩ ⟨99, 0⟩ ⟨100, 0⟩ 7
    ∧ processMarketDataResponse
        (.candle "BBG004730N88" ⟨100, 0⟩ ⟨101, 0⟩ ⟨99, 0⟩ ⟨100, 0⟩ 7)
      = .candleLog "SBER" ⟨100, 0⟩ ⟨101, 0⟩ ⟨99, 0⟩ ⟨100, 0⟩ 7 :=
  ⟨rfl, rfl⟩

/-- Claim C5 (amended): the receive loop dispatches every inbound frame by
payload kind alone — no subscription lookup, no drop counter, no error: every
data frame in the input up to the first receive failure is processed by
`processMarketDataResponse`, whatever its topic; only a frame of unrecognized
payload type reaches the default log branch. -/
theorem dispatch_processes_every_frame (fs : List MarketDataResponsePayload) :
    handleMarketDataStream (fs.map RecvOutcome.frame)
      = (fs.map processMarketDataResponse, [])
    ∧ processMarketDataResponse .unknownPayload = .unknownTypeLog := by
  refine ⟨?_, rfl⟩
  induction fs with
  | nil => rfl
  | cons f fs ih => simp [handleMarketDataStream, ih]

/-- Claim C6 counterexample: after an explicit, successful Close the client
is disconnected, yet SubscribeCandles still performs the operation — it sends
the control frame on the supplied stream and returns nil, not a
session-closed error, because the subscribe helpers never consult the client
state. -/
theorem subscribeCandles_ignores_closed_cex :
    closedState.connected = false
    ∧ (RealClientSubscribeCandles closedState okStream ["BBG004730N88"]
        .oneMinute false).2 = none
    ∧ (RealClientSubscribeCandles closedState okStream ["BBG004730N88"]
        .oneMinute false).1.length = 1 :=
  ⟨rfl, rfl, rfl⟩

/-- Claim C6 (amended): after Close the connected flag is cleared, and the
operations guarded by it (StartMarketDataStream, GetAccounts) fail with the
client-not-connected error instead of running; the stream subscribe helpers,
however, perform no such check: their result is independent of the client
state. -/
theorem closed_client_guarded_ops_error (c c2 : RealClientState)
    (rpc : Except String (List String)) (streamStart : Except String Unit)
    (stream : MarketDataStream) (instruments : List String)
    (interval : SubscriptionInterval) (waitingClose : Bool)
    (h : c.connected = false) :
    (RealClientGetAccounts c rpc).2 = .error "client not connected"
    ∧ RealClientStartMarketDataStream c streamStart
      = .error "client not connected"
    ∧ ((RealClientClose true c2).1).connected = false
    ∧ RealClientSubscribeCandles c stream instruments interval waitingClose
      = RealClientSubscribeCandles c2 stream instruments interval waitingClose := by
  refine ⟨?_, ?_, ?_, rfl⟩
  · unfold RealClientGetAccounts
    simp [h]
  · unfold RealClientStartMarketDataStream
    simp [h]
  · unfold RealClientClose
    by_cases hc : c2.connected <;> simp [hc]

/-- Witness for the amended claim C6 at the state left by a successful
Close and trivial external outcomes. -/
theorem closed_client_guarded_ops_error_witness :
    (RealClientGetAccounts closedState (.ok [])).2
      = .error "client not connected"
    ∧ RealClientStartMarketDataStream closedState (.ok ())
      = .error "client not connected"
    ∧ ((RealClientClose true connectedState).1).connected = false
    ∧ RealClientSubscribeCandles closedState okStream ["BBG004730N88"]
        .oneMinute false
      = RealClientSubscribeCandles connectedState okStream ["BBG004730N88"]
        .oneMinute false :=
  closed_client_guarded_ops_error closedState connectedState (.ok []) (.ok ())
    okStream ["BBG004730N88"] .oneMinute false rfl

/-- Claim C7 counterexample: when the underlying gRPC connection close fails,
the first Close of the mock client returns an error and leaves the connected
flag set although the three data channels are already closed; the second
Close then re-runs the teardown — it closes the already-closed channels a
second time (in Go a runtime panic) and raises the error again. -/
theorem close_after_failed_close_cex :
    (ClientClose false (ClientClose false ⟨true, 0, 0, 0⟩).1).1.channelCloseCount = 2
    ∧ (ClientClose false (ClientClose false ⟨true, 0, 0, 0⟩).1).2
      = some "failed to close connection" :=
  ⟨rfl, rfl⟩

/-- Claim C7 (amended): provided the underlying connection close succeeds,
Close is idempotent for both clients: whatever the starting state, a second
Close right after a first one changes nothing and returns nil, because the
first Close always leaves the connected guard cleared. -/
theorem close_idempotent_on_success (c : RealClientState) (m : ClientState) :
    RealClientClose true (RealClientClose true c).1
      = ((RealClientClose true c).1, none)
    ∧ ClientClose true (ClientClose true m).1 = ((ClientClose true m).1, none) := by
  constructor
  · unfold RealClientClose
    by_cases h : c.connected <;> simp [h]
  · unfold ClientClose
    by_cases h : m.connected <;> simp [h]

end TinkoffGo
